import Mathlib

/-!
Shallow embedding of the core of phys2bids/physio_obj.py: the multi-frequency
channel container (BlueprintInput), its construction-time validation
(is_valid / has_size), trigger-based temporal slicing (__getitem__), trigger
counting with time-offset correction (check_trigger_amount), channel removal
(remove_channels), frequency filtering (to_frequency) and equality (are_equal).

Numeric samples and frequencies are modelled as rationals; Python exceptions
are modelled with an explicit error type and Except-valued functions.
-/

/- The Batteries rational-number arithmetic is irreducible by default, which
blocks evaluation of the embedded functions by decide; make it reducible for
the concrete computations below. -/
attribute [local semireducible] Rat.add Rat.sub Rat.mul Rat.inv Rat.ofScientific

deriving instance DecidableEq for Except

namespace Phys2Bids

/-- Kinds of Python exceptions the embedded code can raise. -/
inductive PyErr
  | indexError
  | attributeError
  | valueError
  | typeError
  | nameError
  | zeroDivisionError
  deriving DecidableEq, Repr

/-- Python runtime values appearing in the metadata lists handed to
BlueprintInput.__init__ (frequencies, channel_names, units): ints, floats
and strings, tagged with their runtime type. -/
inductive PyVal
  | pyInt (n : ℤ)
  | pyFloat (q : ℚ)
  | pyStr (s : String)
  deriving DecidableEq, Repr

/-- isinstance(token, type(v)): the two values have the same runtime type. -/
def PyVal.sameType : PyVal → PyVal → Bool
  | .pyInt _, .pyInt _ => true
  | .pyFloat _, .pyFloat _ => true
  | .pyStr _, .pyStr _ => true
  | _, _ => false

/-- isinstance(v, (int, float)). -/
def PyVal.isNum : PyVal → Bool
  | .pyInt _ => true
  | .pyFloat _ => true
  | .pyStr _ => false

/-- is_valid(var, list, list_type=(int, float)) (physio_obj.py lines 15-48):
raises AttributeError unless every element is an int or a float. -/
def is_valid_num_list (var : List PyVal) : Except PyErr (List PyVal) :=
  if var.all PyVal.isNum then .ok var else .error .attributeError

/-- has_size(var, data_size, token) (physio_obj.py lines 51-80): truncate the
list when longer than data_size; when shorter, check that the token has the
runtime type of var[0] (an empty list makes var[0] raise IndexError, and a
token of a different type makes is_valid raise AttributeError) and pad at the
end with the token. -/
def has_size (var : List PyVal) (data_size : ℕ) (token : PyVal) :
    Except PyErr (List PyVal) :=
  let var' := if var.length > data_size then var.take data_size else var
  if var'.length < data_size then
    match var' with
    | [] => .error .indexError
    | v :: _ =>
      if token.sameType v then
        .ok (var' ++ List.replicate (data_size - var'.length) token)
      else .error .attributeError
  else .ok var'

/-- The metadata part of BlueprintInput.__init__ (physio_obj.py lines 233-237):
frequencies go through is_valid(·, list, (int, float)) and then has_size with
token 0.0; channel_names and units go through has_size with tokens
'unknown' and '[]'. n_channels is len(timeseries). -/
def init_metadata (n_channels : ℕ) (frequencies channel_names units : List PyVal) :
    Except PyErr (List PyVal × List PyVal × List PyVal) :=
  match is_valid_num_list frequencies with
  | .error e => .error e
  | .ok fr =>
    match has_size fr n_channels (.pyFloat 0) with
    | .error e => .error e
    | .ok f =>
      match has_size channel_names n_channels (.pyStr "unknown") with
      | .error e => .error e
      | .ok c =>
        match has_size units n_channels (.pyStr "[]") with
        | .error e => .error e
        | .ok u => .ok (f, c, u)

/-- The BlueprintInput container (physio_obj.py lines 157-241), after its
constructor has run: per-channel 1-D sample arrays, per-channel frequencies,
names and units, the trigger channel index (None only after a removal of the
trigger channel), and the diagnostic fields filled in by
check_trigger_amount. -/
structure Blueprint where
  timeseries : List (List ℚ)
  frequencies : List ℚ
  channel_names : List String
  units : List String
  trigger_channel : Option ℤ
  num_timepoints_found : Option ℕ
  thr : Option ℚ
  time_offset : ℚ
  deriving DecidableEq, Repr

/-- n_channels property: len(self.timeseries). -/
def Blueprint.n_channels (b : Blueprint) : ℕ := b.timeseries.length

/-- Python list indexing l[i]: a negative index counts from the end; an index
out of range raises IndexError. -/
def pyGet {α : Type} (l : List α) (i : ℤ) : Except PyErr α :=
  let j := if i < 0 then i + l.length else i
  if j < 0 then .error .indexError
  else
    match l.get? j.toNat with
    | some x => .ok x
    | none => .error .indexError

/-- The index sequence selected by the Python slice start:stop:step (with all
three given as integers) over a sequence of the given length, following
CPython's PySlice_AdjustIndices: clamp start and stop into range and list
start, start+step, start+2*step, ... strictly before stop. -/
def pySliceIdxList (len : ℕ) (start stop step : ℤ) : List ℤ :=
  let L : ℤ := len
  let lower : ℤ := if step < 0 then -1 else 0
  let upper : ℤ := if step < 0 then L - 1 else L
  let s := if start < 0 then max (start + L) lower else min start upper
  let e := if stop < 0 then max (stop + L) lower else min stop upper
  let count : ℕ :=
    if step < 0 then (if e < s then ((s - e - 1) / (-step)).toNat + 1 else 0)
    else (if s < e then ((e - s - 1) / step).toNat + 1 else 0)
  (List.range count).map fun i : ℕ => s + step * (i : ℤ)

/-- numpy basic slicing arr[start:stop:step] on a 1-D array, values only
(a missing step means step 1; a zero step raises ValueError). All selected
indices are in range, so the default of getD is never read. -/
def npSlice (xs : List ℚ) (start stop : ℤ) (step : Option ℤ) :
    Except PyErr (List ℚ) :=
  match step with
  | none => .ok ((pySliceIdxList xs.length start stop 1).map fun i => xs.getD i.toNat 0)
  | some st =>
    if st = 0 then .error .valueError
    else .ok ((pySliceIdxList xs.length start stop st).map fun i => xs.getD i.toNat 0)

/-- The per-channel body of the slicing loop in BlueprintInput.__getitem__
(physio_obj.py lines 316-330): rescale each truthy (non-zero, non-None) slice
field by frequencies[n]/frequencies[trigger] and floor; then widen a
zero-width or instantaneous window to one sample, or, when the original stop
is exactly the trigger length, clamp the stop to this channel's own length. -/
def adjust_channel_slice (f_trig f_n : ℚ) (trigger_length ch_len : ℕ)
    (s e : ℤ) (step : Option ℤ) (return_instant : Bool) : ℤ × ℤ × Option ℤ :=
  let s' := if s = 0 then s else ⌊f_n / f_trig * (s : ℚ)⌋
  let e' := if e = 0 then e else ⌊f_n / f_trig * (e : ℚ)⌋
  let st' := step.map fun v => if v = 0 then v else ⌊f_n / f_trig * (v : ℚ)⌋
  if s' = e' ∨ return_instant then (s', s' + 1, st')
  else if (trigger_length : ℤ) = e then (s', (ch_len : ℤ), st')
  else (s', e', st')

/-- Map a fallible computation over a list, stopping at the first error (the
behaviour of the for-loop building sliced_timeseries). -/
def mapExcept {α β : Type} (f : α → Except PyErr β) : List α → Except PyErr (List β)
  | [] => .ok []
  | x :: xs =>
    match f x with
    | .error e => .error e
    | .ok y =>
      match mapExcept f xs with
      | .error e => .error e
      | .ok ys => .ok (y :: ys)

/-- The argument of BlueprintInput.__getitem__: an integer or a slice with
optional start, stop and step. -/
inductive PyIdx
  | int (i : ℤ)
  | slice (start stop step : Option ℤ)

/-- `if not self.trigger_channel:` — the trigger field is falsy when it is
None or 0. -/
def triggerFalsy (b : Blueprint) : Bool :=
  match b.trigger_channel with
  | none => true
  | some t => t == 0

/-- BlueprintInput.__getitem__ (physio_obj.py lines 255-336). Returns the pair
(self after the call, sliced result): line 288 assigns self.trigger_channel = 0
when it is falsy, mutating self. An integer index is turned into a one-sample
slice (negative integers resolve against the trigger channel's length); a
missing start/stop becomes 0/trigger length; a start at or past the trigger
length, or a stop past it, raises IndexError. Each channel is then sliced with
adjust_channel_slice. Python raises ZeroDivisionError at the first rescaled
non-zero field when frequencies[trigger] is 0; the check is hoisted before the
loop here (equivalent whenever some rescaled field is non-zero, and never
reached under the positive-frequency hypotheses of the theorems below). The
result goes through __init__ again, whose has_size calls are the identity
because all lists already have n_channels entries; frequencies[n] inside the
loop is modelled with getD, in range whenever the container came out of
__init__ (theorems assume the lists have equal length). -/
def getitem (b : Blueprint) (idx : PyIdx) : Except PyErr (Blueprint × Blueprint) :=
  let b := if triggerFalsy b then { b with trigger_channel := some 0 } else b
  let trig : ℤ := b.trigger_channel.getD 0
  match pyGet b.timeseries trig with
  | .error e => .error e
  | .ok trigCh =>
    let trigger_length := trigCh.length
    let p : ℤ × ℤ × Option ℤ × Bool :=
      match idx with
      | .int i =>
        let j := if i < 0 then (trigger_length : ℤ) + i else i
        (j, j + 1, none, true)
      | .slice s e st => (s.getD 0, e.getD trigger_length, st, false)
    match p with
    | (s₀, e₀, st, return_instant) =>
      if s₀ ≥ (trigger_length : ℤ) ∨ e₀ > (trigger_length : ℤ) then .error .indexError
      else
        match pyGet b.frequencies trig with
        | .error e => .error e
        | .ok f_trig =>
          if f_trig = 0 then .error .zeroDivisionError
          else
            match mapExcept (fun n =>
                let channel := b.timeseries.getD n []
                let f_n := b.frequencies.getD n 0
                let q := adjust_channel_slice f_trig f_n trigger_length channel.length
                  s₀ e₀ st return_instant
                npSlice channel q.1 q.2.1 q.2.2) (List.range b.timeseries.length) with
            | .error e => .error e
            | .ok sliced => .ok (b, { b with timeseries := sliced })

/-- Scan of a boolean list carrying the previous element, counting positions
that start a run of True. itertools.groupby collapses consecutive equal keys
into one group, so the number of groups with key True (physio_obj.py lines
471-472) equals the number of elements that are True and follow a False or
open the list, which is what this scan counts (started with previous = False). -/
def countTrueGroupsAux (prev : Bool) : List Bool → ℕ
  | [] => 0
  | x :: xs => (if x && !prev then 1 else 0) + countTrueGroupsAux x xs

/-- num_timepoints_found (physio_obj.py lines 470-472): the number of groups
of consecutive samples strictly above the threshold. -/
def num_timepoints_of (trigger : List ℚ) (thr : ℚ) : ℕ :=
  countTrueGroupsAux false (trigger.map fun x => decide (thr < x))

/-- timepoints.argmax() on the boolean array trigger > thr: the index of the
first True, or 0 when no sample exceeds the threshold. -/
def firstAbove (xs : List ℚ) (thr : ℚ) : ℕ :=
  (xs.findIdx? fun x => decide (thr < x)).getD 0

/-- BlueprintInput.check_trigger_amount (physio_obj.py lines 434-514) with an
explicitly supplied threshold. (The thr=None branch computes
mean + 2*std of the trigger channel — an irrational number in general — and
then behaves identically; no claim exercises that branch, so the threshold is
a required argument here.) Counts the groups of samples above thr, reads the
time value at the first sample above thr, lowers the offset by
missing * tr when fewer groups than expected were found and tr is non-zero,
and subtracts the offset from the time channel in place. Indexing
self.timeseries[self.trigger_channel] with a None trigger raises TypeError. -/
def check_trigger_amount (b : Blueprint) (thr : ℚ) (num_timepoints_expected : ℕ)
    (tr : ℚ) : Except PyErr Blueprint :=
  match b.trigger_channel with
  | none => .error .typeError
  | some trig =>
    match pyGet b.timeseries trig with
    | .error e => .error e
    | .ok trigger =>
      let found := num_timepoints_of trigger thr
      match pyGet b.timeseries 0 with
      | .error e => .error e
      | .ok time =>
        match pyGet time (firstAbove trigger thr : ℤ) with
        | .error e => .error e
        | .ok t0 =>
          let time_offset :=
            if num_timepoints_expected ≠ 0 ∧ found < num_timepoints_expected ∧ tr ≠ 0
            then t0 - ((num_timepoints_expected - found : ℕ) : ℚ) * tr
            else t0
          .ok { b with
                thr := some thr
                time_offset := time_offset
                timeseries := b.timeseries.set 0 (time.map fun x => x - time_offset)
                num_timepoints_found := some found }

/-- np.as_array is not an attribute of numpy (the function is np.asarray), so
line 422 of physio_obj.py raises AttributeError before anything else in
remove_channels runs. -/
def np_as_array (_idx : List ℕ) : Except PyErr (List ℕ) := .error .attributeError

/-- One pass of the deletion loop of remove_channels (physio_obj.py lines
423-427): delete the entry at index i from all four parallel lists. (Python's
del l[i] raises IndexError out of range; the loop below is only reached with
indices that came from the caller, and the length-preservation theorem holds
for eraseIdx regardless.) -/
def delete_at_index (b : Blueprint) (i : ℕ) : Blueprint :=
  { b with
    timeseries := b.timeseries.eraseIdx i
    frequencies := b.frequencies.eraseIdx i
    channel_names := b.channel_names.eraseIdx i
    units := b.units.eraseIdx i }

/-- The full deletion loop: for idx in sorted(channel_idx, reverse=True),
delete the four parallel entries at idx. -/
def delete_at_indices (b : Blueprint) (idxs : List ℕ) : Blueprint :=
  (idxs.mergeSort fun a b => decide (a ≥ b)).foldl delete_at_index b

/-- BlueprintInput.remove_channels (physio_obj.py lines 399-432). The first
statement, channel_idx = np.as_array(channel_idx), raises AttributeError, so
the method always fails before mutating anything. Were that call fixed, the
deletion loop would run and then line 429 would evaluate
`self.trigger_channel in idx` where idx is the integer loop variable of the
finished for-loop — membership in an integer raises TypeError (and NameError
for an empty index list). -/
def remove_channels (b : Blueprint) (channel_idx : List ℕ) : Except PyErr Blueprint :=
  match np_as_array channel_idx with
  | .error e => .error e
  | .ok sorted_src =>
    let _b' := delete_at_indices b sorted_src
    .error .typeError

/-- BlueprintInput.to_frequency (physio_obj.py lines 516-532). When the
requested frequency is absent, the raise-ValueError line formats
', '.join(list(set(self.frequencies))): join on floats raises TypeError
(only with an empty frequencies list does the join succeed and ValueError
get raised). When the frequency is present, line 524 evaluates the name
`frequencies`, which is not defined (the parameter is `frequency`): NameError.
The method can therefore never return normally. -/
def to_frequency (b : Blueprint) (frequency : ℚ) : Except PyErr Unit :=
  if frequency ∉ b.frequencies then
    (if b.frequencies.isEmpty then .error .valueError else .error .typeError)
  else .error .nameError

/-- ndarray.all() on a float array: True when every sample is non-zero. -/
def npAllNonzero (xs : List ℚ) : Bool := xs.all fun x => decide (x ≠ 0)

/-- Outcome of converting a Python comparison to a single bool: either a
truth value or a raised ValueError. -/
inductive BoolOrVE
  | val (b : Bool)
  | valueError
  deriving DecidableEq, Repr

/-- bool(a == b) for two 1-D numpy arrays, as evaluated inside list/dict
equality: a length-1 comparison yields its single verdict; an empty
comparison converts to False; any comparison with more than one element
raises ValueError (ambiguous truth value); incompatible lengths (neither
being 1, which would broadcast) compare as the scalar False. -/
def npArrayEqBool (a b : List ℚ) : BoolOrVE :=
  if a.length = b.length then
    if a.length = 0 then .val false
    else if a.length = 1 then .val (decide (a = b))
    else .valueError
  else if a.length = 1 ∨ b.length = 1 then .valueError
  else .val false

/-- Scan of the two timeseries lists by Python list equality: elements are
compared in order and the first ambiguous array comparison raises ValueError.
Only called on lists of equal length (list equality compares lengths first),
so the mismatched-constructor cases are unreachable. -/
def timeseriesListEqGo : List (List ℚ) → List (List ℚ) → BoolOrVE
  | a :: as, b :: bs =>
    match npArrayEqBool a b with
    | .valueError => .valueError
    | .val true => timeseriesListEqGo as bs
    | .val false => .val false
  | _, _ => .val true

/-- Python equality of the two timeseries attributes (lists of numpy arrays):
lists of different lengths are unequal outright; otherwise the elements are
compared in order, possibly raising ValueError. -/
def timeseriesListEqBool (xs ys : List (List ℚ)) : BoolOrVE :=
  if xs.length ≠ ys.length then .val false else timeseriesListEqGo xs ys

/-- Equality of every attribute of two Blueprints other than timeseries. -/
def restEq (x y : Blueprint) : Bool :=
  decide (x.frequencies = y.frequencies) && decide (x.channel_names = y.channel_names) &&
  decide (x.units = y.units) && decide (x.trigger_channel = y.trigger_channel) &&
  decide (x.num_timepoints_found = y.num_timepoints_found) &&
  decide (x.thr = y.thr) && decide (x.time_offset = y.time_offset)

/-- _deal_with_dict_value_error (physio_obj.py lines 103-127) for two
BlueprintInput __dict__s: the 'timeseries' key exists and the key sets agree,
so the function compares, for each index of timeseries,
self['timeseries'][i].all() == other['timeseries'][i].all() — the all()
reduction of each array, not the arrays themselves — and every other
attribute with plain equality. Only reached when the dict comparison raised
ValueError, which requires the two timeseries lists to have equal length. -/
def dictValueErrorFallback (x y : Blueprint) : Bool :=
  ((List.range x.timeseries.length).all fun i =>
      npAllNonzero (x.timeseries.getD i []) == npAllNonzero (y.timeseries.getD i []))
  && restEq x y

/-- are_equal (physio_obj.py lines 83-154) specialised to two BlueprintInput
objects: self.__dict__ == other.__dict__ is tried first (timeseries is the
first key inserted by __init__, so an ambiguous array comparison raises
ValueError before any other attribute is looked at), and on ValueError the
fallback compares the all() reductions. The AttributeError branches handle
operands that are not class instances and are not exercised here. -/
def are_equal (x y : Blueprint) : Bool :=
  match timeseriesListEqBool x.timeseries y.timeseries with
  | .val false => false
  | .val true => restEq x y
  | .valueError => dictValueErrorFallback x y

/-- BlueprintInput.__eq__ (physio_obj.py lines 338-351). -/
def Blueprint.eq (x y : Blueprint) : Bool := are_equal x y

/-- Specification-side count of pulses: pair every element of the
thresholded boolean sequence with its predecessor (False before the first
element) and count the positions that are True with a non-True predecessor —
exactly one such position exists per maximal run of True. -/
def runStarts (l : List Bool) : ℕ :=
  ((l.zip (false :: l)).filter fun p => p.1 && !p.2).length

/-- Specification-side pulse count: the number of maximal runs of consecutive
samples strictly above the threshold. -/
def maximalRunsAbove (xs : List ℚ) (thr : ℚ) : ℕ :=
  runStarts (xs.map fun x => decide (thr < x))

/-- The number of individual samples strictly above the threshold (what the
pulse count must not be). -/
def samplesAbove (xs : List ℚ) (thr : ℚ) : ℕ :=
  (xs.filter fun x => decide (thr < x)).length

/-- Specification-side padding/truncation: what has_size returns when it does
not raise. -/
def padTrunc (var : List PyVal) (n : ℕ) (token : PyVal) : List PyVal :=
  if var.length > n then var.take n else var ++ List.replicate (n - var.length) token

/-- The parallel-lists invariant: frequencies, channel_names and units all
have one entry per channel of timeseries. -/
def sameLens (b : Blueprint) : Prop :=
  b.frequencies.length = b.timeseries.length ∧
  b.channel_names.length = b.timeseries.length ∧
  b.units.length = b.timeseries.length

instance (b : Blueprint) : Decidable (sameLens b) := by
  unfold sameLens; infer_instance

/-! ## Helper lemmas -/

theorem countTrueGroupsAux_eq_pairs (l : List Bool) : ∀ prev : Bool,
    countTrueGroupsAux prev l = ((l.zip (prev :: l)).filter fun p => p.1 && !p.2).length := by
  induction l with
  | nil => intro prev; rfl
  | cons x xs ih =>
    intro prev
    simp only [countTrueGroupsAux, List.zip_cons_cons, List.filter_cons, ih x]
    by_cases h : (x && !prev) = true
    · simp [h, Nat.add_comm]
    · simp [h]

/-- The groupby-based pulse count of the code equals the specification's
count of maximal runs of samples above the threshold. -/
theorem num_timepoints_eq_maximalRuns (trigger : List ℚ) (thr : ℚ) :
    num_timepoints_of trigger thr = maximalRunsAbove trigger thr := by
  unfold num_timepoints_of maximalRunsAbove runStarts
  exact countTrueGroupsAux_eq_pairs _ false

theorem mapExcept_ok_length {α β : Type} {f : α → Except PyErr β} :
    ∀ {l : List α} {ys : List β}, mapExcept f l = .ok ys → ys.length = l.length := by
  intro l
  induction l with
  | nil => intro ys h; simp only [mapExcept] at h; cases h; rfl
  | cons x xs ih =>
    intro ys h
    simp only [mapExcept] at h
    cases h1 : f x with
    | error e => rw [h1] at h; cases h
    | ok y =>
      rw [h1] at h
      cases h2 : mapExcept f xs with
      | error e => rw [h2] at h; cases h
      | ok ys' => rw [h2] at h; cases h; simp [ih h2]

theorem mapExcept_ok_of_forall {α β : Type} (f : α → Except PyErr β) (g : α → β) :
    ∀ (l : List α), (∀ x ∈ l, f x = .ok (g x)) → mapExcept f l = .ok (l.map g) := by
  intro l
  induction l with
  | nil => intro _; rfl
  | cons x xs ih =>
    intro h
    simp only [mapExcept, h x (by simp), ih fun y hy => h y (by simp [hy]), List.map_cons]

theorem floor_mul_nonneg {k : ℚ} (hk : 0 < k) {a : ℤ} (ha : 0 ≤ a) :
    0 ≤ ⌊k * (a : ℚ)⌋ := by
  apply Int.floor_nonneg.mpr
  have : (0 : ℚ) ≤ (a : ℚ) := by exact_mod_cast ha
  positivity

theorem floor_mul_lt {k : ℚ} (hk : 0 < k) {a : ℤ} {L m : ℕ}
    (hm : (m : ℚ) = k * L) (ha : a < (L : ℤ)) : ⌊k * (a : ℚ)⌋ < (m : ℤ) := by
  apply Int.floor_lt.mpr
  push_cast
  rw [hm]
  have : (a : ℚ) < (L : ℚ) := by exact_mod_cast ha
  exact mul_lt_mul_of_pos_left this hk

theorem floor_mul_le {k : ℚ} (hk : 0 < k) {e : ℤ} {L m : ℕ}
    (hm : (m : ℚ) = k * L) (he : e ≤ (L : ℤ)) : ⌊k * (e : ℚ)⌋ ≤ (m : ℤ) := by
  have h1 : k * (e : ℚ) ≤ k * (L : ℚ) := by
    apply mul_le_mul_of_nonneg_left _ (le_of_lt hk)
    exact_mod_cast he
  calc ⌊k * (e : ℚ)⌋ ≤ ⌊k * (L : ℚ)⌋ := Int.floor_le_floor h1
    _ = ⌊(m : ℚ)⌋ := by rw [hm]
    _ = (m : ℤ) := Int.floor_natCast m

theorem floor_mul_mono {k : ℚ} (hk : 0 < k) {a e : ℤ} (h : a ≤ e) :
    ⌊k * (a : ℚ)⌋ ≤ ⌊k * (e : ℚ)⌋ := by
  apply Int.floor_le_floor
  apply mul_le_mul_of_nonneg_left _ (le_of_lt hk)
  exact_mod_cast h

theorem map_range_getD_eq_drop_take (xs : List ℚ) (s c : ℕ) (h : s + c ≤ xs.length) :
    ((List.range c).map fun i => xs.getD (s + i) 0) = (xs.drop s).take c := by
  apply List.ext_getElem
  · simp
    omega
  · intro i h1 h2
    have hi : i < c := by simpa using h1
    have hs : s + i < xs.length := by omega
    simp [List.getElem_take, List.getElem_drop, List.getD_eq_getElem?_getD,
      List.getElem?_eq_getElem hs]

/-- npSlice with no step, a non-negative start within the array and a stop
between 0 and the length behaves as drop-then-take. -/
theorem npSlice_none_eq (xs : List ℚ) (s e : ℤ) (hs0 : 0 ≤ s)
    (hsl : s ≤ (xs.length : ℤ)) (he0 : 0 ≤ e) (hel : e ≤ (xs.length : ℤ)) :
    npSlice xs s e none = .ok ((xs.drop s.toNat).take (e - s).toNat) := by
  unfold npSlice pySliceIdxList
  simp only
  have hlt : ¬ ((1 : ℤ) < 0) := by norm_num
  have hsy : (if s < 0 then max (s + (xs.length : ℤ)) (if (1:ℤ) < 0 then -1 else 0)
      else min s (if (1:ℤ) < 0 then (xs.length : ℤ) - 1 else (xs.length : ℤ))) = s := by
    rw [if_neg (by omega), if_neg hlt, min_eq_left hsl]
  have hey : (if e < 0 then max (e + (xs.length : ℤ)) (if (1:ℤ) < 0 then -1 else 0)
      else min e (if (1:ℤ) < 0 then (xs.length : ℤ) - 1 else (xs.length : ℤ))) = e := by
    rw [if_neg (by omega), if_neg hlt, min_eq_left hel]
  rw [hsy, hey]
  rw [if_neg hlt]
  congr 1
  have hcount : (if s < e then ((e - s - 1) / 1).toNat + 1 else 0) = (e - s).toNat := by
    split <;> omega
  rw [hcount, List.map_map]
  have hmap : ((List.range (e - s).toNat).map
        ((fun i : ℤ => xs.getD i.toNat 0) ∘ fun i : ℕ => s + 1 * (i : ℤ)))
      = (List.range (e - s).toNat).map fun i => xs.getD (s.toNat + i) 0 := by
    apply List.map_congr_left
    intro i _
    simp only [Function.comp_apply]
    congr 1
    omega
  rw [hmap]
  apply map_range_getD_eq_drop_take
  omega

theorem pyGet_nat {α : Type} (l : List α) (d : α) (t : ℕ) (ht : t < l.length) :
    pyGet l (t : ℤ) = .ok (l.getD t d) := by
  unfold pyGet
  have h1 : ¬((t : ℤ) < 0) := by omega
  simp only [h1, if_false, if_neg (by omega : ¬((t : ℤ) < 0)), Int.toNat_natCast]
  rw [List.get?_eq_getElem?, List.getElem?_eq_getElem ht,
    List.getD_eq_getElem?_getD, List.getElem?_eq_getElem ht]
  rfl

theorem adjust_none_false (f_t f_n : ℚ) (L m : ℕ) (s e : ℤ) :
    adjust_channel_slice f_t f_n L m s e none false =
      (⌊f_n / f_t * (s : ℚ)⌋,
       (if ⌊f_n / f_t * (s : ℚ)⌋ = ⌊f_n / f_t * (e : ℚ)⌋ then ⌊f_n / f_t * (s : ℚ)⌋ + 1
        else if (L : ℤ) = e then (m : ℤ) else ⌊f_n / f_t * (e : ℚ)⌋),
       none) := by
  unfold adjust_channel_slice
  have hs : (if s = 0 then s else ⌊f_n / f_t * (s : ℚ)⌋) = ⌊f_n / f_t * (s : ℚ)⌋ := by
    split
    · simp_all
    · rfl
  have he : (if e = 0 then e else ⌊f_n / f_t * (e : ℚ)⌋) = ⌊f_n / f_t * (e : ℚ)⌋ := by
    split
    · simp_all
    · rfl
  simp only [hs, he, Option.map_none']
  by_cases h1 : ⌊f_n / f_t * (s : ℚ)⌋ = ⌊f_n / f_t * (e : ℚ)⌋
  · simp [h1]
  · by_cases h2 : (L : ℤ) = e <;> simp [h1, h2]

theorem adjust_none_true (f_t f_n : ℚ) (L m : ℕ) (s e : ℤ) :
    adjust_channel_slice f_t f_n L m s e none true =
      (⌊f_n / f_t * (s : ℚ)⌋, ⌊f_n / f_t * (s : ℚ)⌋ + 1, none) := by
  unfold adjust_channel_slice
  have hs : (if s = 0 then s else ⌊f_n / f_t * (s : ℚ)⌋) = ⌊f_n / f_t * (s : ℚ)⌋ := by
    split
    · simp_all
    · rfl
  simp only [hs, Option.map_none', or_true, if_true]

/-- With the trigger channel set, line 288's falsy-trigger assignment leaves
the container unchanged. -/
theorem getitem_self (b : Blueprint) {t : ℤ} (htrig : b.trigger_channel = some t) :
    (if triggerFalsy b then { b with trigger_channel := some 0 } else b) = b := by
  unfold triggerFalsy
  rw [htrig]
  by_cases h : t = 0
  · subst h
    simp only [beq_self_eq_true, if_true]
    cases b
    simp_all
  · simp [h]

/-- Core computation of __getitem__ on an in-bounds range with no step, over a
container whose channel lengths are exactly proportional to their frequencies:
every channel is sliced to [floor(k*start), max(floor(k*stop), floor(k*start)+1))
where k is the channel-to-trigger frequency ratio. -/
theorem getitem_slice_ok
    (b : Blueprint) (t L : ℕ) (s₀ e₀ : ℤ)
    (htrig : b.trigger_channel = some (t : ℤ))
    (ht : t < b.timeseries.length)
    (hlen : b.frequencies.length = b.timeseries.length)
    (hL : (b.timeseries.getD t []).length = L)
    (hfpos : ∀ n, n < b.timeseries.length → 0 < b.frequencies.getD n 0)
    (hexact : ∀ n, n < b.timeseries.length →
        ((b.timeseries.getD n []).length : ℚ) =
          b.frequencies.getD n 0 / b.frequencies.getD t 0 * L)
    (hs0 : 0 ≤ s₀) (hsL : s₀ < (L : ℤ)) (hse : s₀ ≤ e₀) (heL : e₀ ≤ (L : ℤ)) :
    getitem b (.slice (some s₀) (some e₀) none) =
      .ok (b, { b with timeseries := (List.range b.timeseries.length).map (fun n =>
        ((b.timeseries.getD n []).drop
            (⌊b.frequencies.getD n 0 / b.frequencies.getD t 0 * (s₀ : ℚ)⌋).toNat).take
          ((max ⌊b.frequencies.getD n 0 / b.frequencies.getD t 0 * (e₀ : ℚ)⌋
              (⌊b.frequencies.getD n 0 / b.frequencies.getD t 0 * (s₀ : ℚ)⌋ + 1)
            - ⌊b.frequencies.getD n 0 / b.frequencies.getD t 0 * (s₀ : ℚ)⌋).toNat)) }) := by
  have htF : t < b.frequencies.length := by rw [hlen]; exact ht
  have hget1 := pyGet_nat b.timeseries [] t ht
  have hget2 := pyGet_nat b.frequencies 0 t htF
  have hbound : ¬(s₀ ≥ (L : ℤ) ∨ e₀ > (L : ℤ)) := by omega
  have hfor : ∀ n ∈ List.range b.timeseries.length,
      (npSlice (b.timeseries.getD n [])
        (adjust_channel_slice (b.frequencies.getD t 0) (b.frequencies.getD n 0)
          L (b.timeseries.getD n []).length s₀ e₀ none false).1
        (adjust_channel_slice (b.frequencies.getD t 0) (b.frequencies.getD n 0)
          L (b.timeseries.getD n []).length s₀ e₀ none false).2.1
        (adjust_channel_slice (b.frequencies.getD t 0) (b.frequencies.getD n 0)
          L (b.timeseries.getD n []).length s₀ e₀ none false).2.2) =
      .ok (((b.timeseries.getD n []).drop
            (⌊b.frequencies.getD n 0 / b.frequencies.getD t 0 * (s₀ : ℚ)⌋).toNat).take
          ((max ⌊b.frequencies.getD n 0 / b.frequencies.getD t 0 * (e₀ : ℚ)⌋
              (⌊b.frequencies.getD n 0 / b.frequencies.getD t 0 * (s₀ : ℚ)⌋ + 1)
            - ⌊b.frequencies.getD n 0 / b.frequencies.getD t 0 * (s₀ : ℚ)⌋).toNat)) := by
    intro n hn
    have hn' : n < b.timeseries.length := List.mem_range.mp hn
    have hk : 0 < b.frequencies.getD n 0 / b.frequencies.getD t 0 :=
      div_pos (hfpos n hn') (hfpos t ht)
    rw [adjust_none_false]
    have hsnn := floor_mul_nonneg hk hs0
    have hslt := floor_mul_lt hk (hexact n hn') hsL
    have hele := floor_mul_le hk (hexact n hn') heL
    have hmono := floor_mul_mono hk hse
    have hE : (if ⌊b.frequencies.getD n 0 / b.frequencies.getD t 0 * (s₀ : ℚ)⌋ =
          ⌊b.frequencies.getD n 0 / b.frequencies.getD t 0 * (e₀ : ℚ)⌋ then
          ⌊b.frequencies.getD n 0 / b.frequencies.getD t 0 * (s₀ : ℚ)⌋ + 1
        else if (L : ℤ) = e₀ then ((b.timeseries.getD n []).length : ℤ)
        else ⌊b.frequencies.getD n 0 / b.frequencies.getD t 0 * (e₀ : ℚ)⌋) =
        max ⌊b.frequencies.getD n 0 / b.frequencies.getD t 0 * (e₀ : ℚ)⌋
          (⌊b.frequencies.getD n 0 / b.frequencies.getD t 0 * (s₀ : ℚ)⌋ + 1) := by
      by_cases h1 : ⌊b.frequencies.getD n 0 / b.frequencies.getD t 0 * (s₀ : ℚ)⌋ =
          ⌊b.frequencies.getD n 0 / b.frequencies.getD t 0 * (e₀ : ℚ)⌋
      · rw [if_pos h1]; omega
      · rw [if_neg h1]
        by_cases h2 : (L : ℤ) = e₀
        · rw [if_pos h2]
          have hfl : ⌊b.frequencies.getD n 0 / b.frequencies.getD t 0 * (e₀ : ℚ)⌋ =
              ((b.timeseries.getD n []).length : ℤ) := by
            have he' : (e₀ : ℚ) = (L : ℚ) := by exact_mod_cast h2.symm
            rw [he', ← hexact n hn', Int.floor_natCast]
          omega
        · rw [if_neg h2]; omega
    simp only
    rw [hE]
    rw [npSlice_none_eq _ _ _ hsnn (by omega) (by omega) (by omega)]
  simp only [getitem, getitem_self b htrig, htrig, Option.getD_some, hget1, hget2, hL,
    if_neg hbound, if_neg (ne_of_gt (hfpos t ht)),
    mapExcept_ok_of_forall _ _ _ hfor]

/-- Core computation of __getitem__ on an integer index (resolved against the
trigger channel's length when negative): every channel keeps exactly the one
sample at floor(k*index). -/
theorem getitem_int_ok
    (b : Blueprint) (t L : ℕ) (i : ℤ)
    (htrig : b.trigger_channel = some (t : ℤ))
    (ht : t < b.timeseries.length)
    (hlen : b.frequencies.length = b.timeseries.length)
    (hL : (b.timeseries.getD t []).length = L)
    (hfpos : ∀ n, n < b.timeseries.length → 0 < b.frequencies.getD n 0)
    (hexact : ∀ n, n < b.timeseries.length →
        ((b.timeseries.getD n []).length : ℚ) =
          b.frequencies.getD n 0 / b.frequencies.getD t 0 * L)
    (hres : 0 ≤ (if i < 0 then (L : ℤ) + i else i))
    (hresL : (if i < 0 then (L : ℤ) + i else i) < (L : ℤ)) :
    getitem b (.int i) =
      .ok (b, { b with timeseries := (List.range b.timeseries.length).map (fun n =>
        ((b.timeseries.getD n []).drop
            (⌊b.frequencies.getD n 0 / b.frequencies.getD t 0 *
              (((if i < 0 then (L : ℤ) + i else i) : ℤ) : ℚ)⌋).toNat).take 1) }) := by
  have htF : t < b.frequencies.length := by rw [hlen]; exact ht
  have hget1 := pyGet_nat b.timeseries [] t ht
  have hget2 := pyGet_nat b.frequencies 0 t htF
  have hbound : ¬((if i < 0 then (L : ℤ) + i else i) ≥ (L : ℤ) ∨
      (if i < 0 then (L : ℤ) + i else i) + 1 > (L : ℤ)) := by omega
  have hfor : ∀ n ∈ List.range b.timeseries.length,
      (npSlice (b.timeseries.getD n [])
        (adjust_channel_slice (b.frequencies.getD t 0) (b.frequencies.getD n 0)
          L (b.timeseries.getD n []).length (if i < 0 then (L : ℤ) + i else i)
          ((if i < 0 then (L : ℤ) + i else i) + 1) none true).1
        (adjust_channel_slice (b.frequencies.getD t 0) (b.frequencies.getD n 0)
          L (b.timeseries.getD n []).length (if i < 0 then (L : ℤ) + i else i)
          ((if i < 0 then (L : ℤ) + i else i) + 1) none true).2.1
        (adjust_channel_slice (b.frequencies.getD t 0) (b.frequencies.getD n 0)
          L (b.timeseries.getD n []).length (if i < 0 then (L : ℤ) + i else i)
          ((if i < 0 then (L : ℤ) + i else i) + 1) none true).2.2) =
      .ok (((b.timeseries.getD n []).drop
            (⌊b.frequencies.getD n 0 / b.frequencies.getD t 0 *
              (((if i < 0 then (L : ℤ) + i else i) : ℤ) : ℚ)⌋).toNat).take 1) := by
    intro n hn
    have hn' : n < b.timeseries.length := List.mem_range.mp hn
    have hk : 0 < b.frequencies.getD n 0 / b.frequencies.getD t 0 :=
      div_pos (hfpos n hn') (hfpos t ht)
    rw [adjust_none_true]
    have hsnn := floor_mul_nonneg hk hres
    have hslt := floor_mul_lt hk (hexact n hn') hresL
    simp only
    rw [npSlice_none_eq _ _ _ hsnn (by omega) (by omega) (by omega)]
    have hone : (⌊b.frequencies.getD n 0 / b.frequencies.getD t 0 *
        (((if i < 0 then (L : ℤ) + i else i) : ℤ) : ℚ)⌋ + 1 -
        ⌊b.frequencies.getD n 0 / b.frequencies.getD t 0 *
        (((if i < 0 then (L : ℤ) + i else i) : ℤ) : ℚ)⌋).toNat = 1 := by omega
    rw [hone]
  simp only [getitem, getitem_self b htrig, htrig, Option.getD_some, hget1, hget2, hL,
    if_neg hbound, if_neg (ne_of_gt (hfpos t ht)),
    mapExcept_ok_of_forall _ _ _ hfor]

/-- __getitem__ raises IndexError when the requested start is at or past the
trigger channel's length, or the stop is past it. -/
theorem getitem_slice_oob
    (b : Blueprint) (t L : ℕ) (s₀ e₀ : ℤ)
    (htrig : b.trigger_channel = some (t : ℤ))
    (ht : t < b.timeseries.length)
    (hL : (b.timeseries.getD t []).length = L)
    (hoob : s₀ ≥ (L : ℤ) ∨ e₀ > (L : ℤ)) :
    getitem b (.slice (some s₀) (some e₀) none) = .error .indexError := by
  have hget1 := pyGet_nat b.timeseries [] t ht
  simp only [getitem, getitem_self b htrig, htrig, Option.getD_some, hget1, hL,
    if_pos hoob]

/-- Full characterisation of a successful check_trigger_amount call. -/
theorem check_trigger_amount_ok
    (b : Blueprint) (thr : ℚ) (nexp : ℕ) (tr : ℚ) (trig : ℤ)
    (trigger time : List ℚ) (t0 : ℚ)
    (htrig : b.trigger_channel = some trig)
    (hget : pyGet b.timeseries trig = .ok trigger)
    (htime : pyGet b.timeseries 0 = .ok time)
    (ht0 : pyGet time (firstAbove trigger thr : ℤ) = .ok t0) :
    check_trigger_amount b thr nexp tr = .ok { b with
      thr := some thr
      time_offset := (if nexp ≠ 0 ∧ num_timepoints_of trigger thr < nexp ∧ tr ≠ 0
        then t0 - ((nexp - num_timepoints_of trigger thr : ℕ) : ℚ) * tr else t0)
      timeseries := b.timeseries.set 0 (time.map (fun x =>
        x - (if nexp ≠ 0 ∧ num_timepoints_of trigger thr < nexp ∧ tr ≠ 0
          then t0 - ((nexp - num_timepoints_of trigger thr : ℕ) : ℚ) * tr else t0)))
      num_timepoints_found := some (num_timepoints_of trigger thr) } := by
  simp only [check_trigger_amount, htrig, hget, htime, ht0]

theorem getD_set_zero {α : Type} (l : List α) (x d : α) (h : 0 < l.length) :
    (l.set 0 x).getD 0 d = x := by
  cases l with
  | nil => simp at h
  | cons a as => rfl

theorem has_size_length {var : List PyVal} {n : ℕ} {token : PyVal} {out : List PyVal}
    (h : has_size var n token = .ok out) : out.length = n := by
  unfold has_size at h
  by_cases hgt : var.length > n
  · simp only [if_pos hgt] at h
    have hlen : (var.take n).length = n := by
      rw [List.length_take]; omega
    rw [if_neg (by omega)] at h
    cases h
    exact hlen
  · simp only [if_neg hgt] at h
    by_cases hlt : var.length < n
    · rw [if_pos hlt] at h
      cases hv : var with
      | nil => rw [hv] at h; cases h
      | cons v vs =>
        rw [hv] at h
        by_cases hty : token.sameType v = true
        · simp only [hty, if_true] at h
          cases h
          rw [← hv]
          simp only [List.length_append, List.length_replicate]
          omega
        · simp only [hty, if_false] at h
          cases h
    · rw [if_neg hlt] at h
      cases h
      omega

/-- has_size succeeds and pads/truncates whenever the list is long enough, or
is non-empty with a head of the token's runtime type. -/
theorem has_size_ok (var : List PyVal) (n : ℕ) (token : PyVal)
    (h : var.length < n → ∃ v, var.head? = some v ∧ token.sameType v = true) :
    has_size var n token = .ok (padTrunc var n token) := by
  unfold has_size padTrunc
  by_cases hgt : var.length > n
  · simp only [if_pos hgt]
    rw [if_neg (by rw [List.length_take]; omega)]
  · simp only [if_neg hgt]
    by_cases hlt : var.length < n
    · obtain ⟨v, hv, hty⟩ := h hlt
      rw [if_pos hlt]
      cases var with
      | nil => cases hv
      | cons w ws =>
        cases hv
        simp only [hty, if_true]
    · rw [if_neg hlt]
      have : n - var.length = 0 := by omega
      rw [this]
      simp

/-- A successful slice keeps the source container's metadata in both returned
containers and yields one sliced channel per source channel. -/
theorem getitem_ok_shape {b : Blueprint} {idx : PyIdx} {b₁ b₂ : Blueprint}
    (h : getitem b idx = .ok (b₁, b₂)) :
    b₁.timeseries = b.timeseries ∧ b₁.frequencies = b.frequencies ∧
    b₁.channel_names = b.channel_names ∧ b₁.units = b.units ∧
    b₂.timeseries.length = b.timeseries.length ∧ b₂.frequencies = b.frequencies ∧
    b₂.channel_names = b.channel_names ∧ b₂.units = b.units := by
  unfold getitem at h
  set c := if triggerFalsy b then { b with trigger_channel := some 0 } else b with hc
  have hcts : c.timeseries = b.timeseries := by rw [hc]; split <;> rfl
  have hcf : c.frequencies = b.frequencies := by rw [hc]; split <;> rfl
  have hcn : c.channel_names = b.channel_names := by rw [hc]; split <;> rfl
  have hcu : c.units = b.units := by rw [hc]; split <;> rfl
  simp only at h
  split at h
  · cases h
  · split at h
    · cases h
    · split at h
      · cases h
      · split at h
        · cases h
        · split at h
          · cases h
          · rename_i sliced hmap
            simp only [Except.ok.injEq, Prod.mk.injEq] at h
            obtain ⟨h1, h2⟩ := h
            rw [← h1, ← h2]
            refine ⟨hcts, hcf, hcn, hcu, ?_, hcf, hcn, hcu⟩
            have := mapExcept_ok_length hmap
            simp only [List.length_range] at this
            rw [this, hcts]

/-- The deletion loop of remove_channels preserves the equal-length invariant
of the four parallel lists. -/
theorem delete_at_indices_sameLens (idxs : List ℕ) (b : Blueprint)
    (h : sameLens b) : sameLens (delete_at_indices b idxs) := by
  unfold delete_at_indices
  generalize (idxs.mergeSort fun a b => decide (a ≥ b)) = l
  induction l generalizing b with
  | nil => exact h
  | cons i l ih =>
    apply ih
    obtain ⟨h1, h2, h3⟩ := h
    refine ⟨?_, ?_, ?_⟩ <;>
      simp only [delete_at_index, List.length_eraseIdx, h1, h2, h3]

theorem pyGet_nat_ok {α : Type} {l : List α} {t : ℕ} {x : α}
    (h : pyGet l (t : ℤ) = .ok x) (d : α) : t < l.length ∧ l.getD t d = x := by
  unfold pyGet at h
  simp only [if_neg (by omega : ¬((t : ℤ) < 0)), Int.toNat_natCast] at h
  cases hq : l.get? t with
  | none => rw [hq] at h; cases h
  | some y =>
    rw [hq] at h
    cases h
    have hlt := List.get?_eq_some.mp hq
    obtain ⟨hle, hget⟩ := hlt
    constructor
    · exact hle
    · rw [List.getD_eq_getElem?_getD, ← List.get?_eq_getElem?, hq]
      rfl

theorem getD_map_sub (l : List ℚ) (c : ℚ) (i : ℕ) (h : i < l.length) (d : ℚ) :
    (l.map fun x => x - c).getD i d = l.getD i 0 - c := by
  rw [List.getD_eq_getElem?_getD, List.getElem?_map, List.getElem?_eq_getElem h,
    List.getD_eq_getElem?_getD, List.getElem?_eq_getElem h]
  rfl

/-! ## Claims -/

/-- C1: for every container and every threshold, check_trigger_amount records
as num_timepoints_found the number of maximal runs of consecutive
trigger-channel samples strictly above the threshold (not the number of
samples above it); in particular for trigger channel [0,0,3,3,0,0,3,3,3,0]
with threshold 2.5 the count is 2, while 5 samples lie above the threshold. -/
theorem claim_C1_pulse_count_is_runs :
    (∀ (b : Blueprint) (thr : ℚ) (nexp : ℕ) (tr : ℚ) (trig : ℤ)
        (trigger : List ℚ) (b' : Blueprint),
        b.trigger_channel = some trig →
        pyGet b.timeseries trig = .ok trigger →
        check_trigger_amount b thr nexp tr = .ok b' →
        b'.num_timepoints_found = some (maximalRunsAbove trigger thr))
    ∧ maximalRunsAbove [0, 0, 3, 3, 0, 0, 3, 3, 3, 0] (5/2) = 2
    ∧ samplesAbove [0, 0, 3, 3, 0, 0, 3, 3, 3, 0] (5/2) = 5
    ∧ Except.map (fun b : Blueprint => b.num_timepoints_found)
        (check_trigger_amount
          ⟨[[0, 1, 2, 3, 4, 5, 6, 7, 8, 9], [0, 0, 3, 3, 0, 0, 3, 3, 3, 0]],
            [1, 1], ["time", "trigger"], ["s", ""], some 1, none, none, 0⟩
          (5/2) 0 0) = .ok (some 2) := by
  refine ⟨?_, by decide, by decide, by decide⟩
  intro b thr nexp tr trig trigger b' htrig hget hok
  simp only [check_trigger_amount, htrig, hget] at hok
  split at hok
  · cases hok
  · split at hok
    · cases hok
    · simp only [Except.ok.injEq] at hok
      rw [← hok]
      simp [num_timepoints_eq_maximalRuns]

/-- Witness for C1 at a concrete container. -/
theorem claim_C1_witness :
    ((Blueprint.mk [[0, 1, 2], [0, 0, 3]] [1, 1] ["time", "tr"] ["s", ""]
        (some 1) none none 0).trigger_channel = some 1 ∧
      pyGet (Blueprint.mk [[0, 1, 2], [0, 0, 3]] [1, 1] ["time", "tr"] ["s", ""]
        (some 1) none none 0).timeseries 1 = .ok [0, 0, 3] ∧
      check_trigger_amount (Blueprint.mk [[0, 1, 2], [0, 0, 3]] [1, 1]
        ["time", "tr"] ["s", ""] (some 1) none none 0) (5/2) 0 0 =
        .ok (Blueprint.mk [[-2, -1, 0], [0, 0, 3]] [1, 1] ["time", "tr"] ["s", ""]
          (some 1) (some 1) (some (5/2)) 2)) ∧
    (Blueprint.mk [[-2, -1, 0], [0, 0, 3]] [1, 1] ["time", "tr"] ["s", ""]
      (some 1) (some 1) (some (5/2)) 2).num_timepoints_found =
      some (maximalRunsAbove [0, 0, 3] (5/2)) :=
  ⟨⟨rfl, by decide, by decide⟩,
    claim_C1_pulse_count_is_runs.1
      (Blueprint.mk [[0, 1, 2], [0, 0, 3]] [1, 1] ["time", "tr"] ["s", ""]
        (some 1) none none 0) (5/2) 0 0 1 [0, 0, 3]
      (Blueprint.mk [[-2, -1, 0], [0, 0, 3]] [1, 1] ["time", "tr"] ["s", ""]
        (some 1) (some 1) (some (5/2)) 2) rfl (by decide) (by decide)⟩

/-- C3: the four parallel sequences have one entry per channel after
construction (init_metadata pads/truncates to the channel count), slicing
preserves the equal-length invariant in both the source and the result, and
the deletion loop of remove_channels preserves it as well; remove_channels as
written never completes normally (see C6), so no completed call can break it. -/
theorem claim_C3_parallel_lists :
    (∀ (n : ℕ) (f c u f' c' u' : List PyVal),
        init_metadata n f c u = .ok (f', c', u') →
        f'.length = n ∧ c'.length = n ∧ u'.length = n)
    ∧ (∀ (b : Blueprint) (idx : PyIdx) (b₁ b₂ : Blueprint),
        getitem b idx = .ok (b₁, b₂) → sameLens b → sameLens b₁ ∧ sameLens b₂)
    ∧ (∀ (b : Blueprint) (idxs : List ℕ), sameLens b →
        sameLens (delete_at_indices b idxs))
    ∧ (∀ (b : Blueprint) (idxs : List ℕ) (r : Blueprint),
        remove_channels b idxs ≠ .ok r) := by
  refine ⟨?_, ?_, ?_, ?_⟩
  · intro n f c u f' c' u' h
    unfold init_metadata at h
    cases hval : is_valid_num_list f with
    | error e => simp only [hval] at h; cases h
    | ok fr =>
      simp only [hval] at h
      cases hf : has_size fr n (.pyFloat 0) with
      | error e => simp only [hf] at h; cases h
      | ok f1 =>
        simp only [hf] at h
        cases hc : has_size c n (.pyStr "unknown") with
        | error e => simp only [hc] at h; cases h
        | ok c1 =>
          simp only [hc] at h
          cases hu : has_size u n (.pyStr "[]") with
          | error e => simp only [hu] at h; cases h
          | ok u1 =>
            simp only [hu, Except.ok.injEq, Prod.mk.injEq] at h
            obtain ⟨h1, h2, h3⟩ := h
            rw [← h1, ← h2, ← h3]
            exact ⟨has_size_length hf, has_size_length hc, has_size_length hu⟩
  · intro b idx b₁ b₂ h hl
    obtain ⟨h1, h2, h3, h4, h5, h6, h7, h8⟩ := getitem_ok_shape h
    obtain ⟨ha, hb, hc⟩ := hl
    exact ⟨⟨by rw [h1, h2]; exact ha, by rw [h1, h3]; exact hb, by rw [h1, h4]; exact hc⟩,
      ⟨by rw [h5, h6]; exact ha, by rw [h5, h7]; exact hb, by rw [h5, h8]; exact hc⟩⟩
  · intro b idxs h
    exact delete_at_indices_sameLens idxs b h
  · intro b idxs r h
    simp [remove_channels, np_as_array] at h

/-- Witness for C3 at concrete inputs. -/
theorem claim_C3_witness :
    (init_metadata 2 [.pyFloat 3] [.pyStr "time"] [.pyStr "s"] =
        .ok ([.pyFloat 3, .pyFloat 0], [.pyStr "time", .pyStr "unknown"],
          [.pyStr "s", .pyStr "[]"]) ∧
      ([PyVal.pyFloat 3, PyVal.pyFloat 0].length = 2 ∧
        [PyVal.pyStr "time", PyVal.pyStr "unknown"].length = 2 ∧
        [PyVal.pyStr "s", PyVal.pyStr "[]"].length = 2)) ∧
    (getitem (Blueprint.mk [[0, 1, 2], [0, 0, 3]] [1, 1] ["time", "tr"] ["s", ""]
        (some 1) none none 0) (.int 0) =
      .ok (Blueprint.mk [[0, 1, 2], [0, 0, 3]] [1, 1] ["time", "tr"] ["s", ""]
          (some 1) none none 0,
        Blueprint.mk [[0], [0]] [1, 1] ["time", "tr"] ["s", ""]
          (some 1) none none 0) ∧
      sameLens (Blueprint.mk [[0, 1, 2], [0, 0, 3]] [1, 1] ["time", "tr"] ["s", ""]
        (some 1) none none 0) ∧
      (sameLens (Blueprint.mk [[0, 1, 2], [0, 0, 3]] [1, 1] ["time", "tr"] ["s", ""]
          (some 1) none none 0) ∧
        sameLens (Blueprint.mk [[0], [0]] [1, 1] ["time", "tr"] ["s", ""]
          (some 1) none none 0))) ∧
    sameLens (delete_at_indices (Blueprint.mk [[0, 1, 2], [0, 0, 3]] [1, 1]
      ["time", "tr"] ["s", ""] (some 1) none none 0) [1]) :=
  ⟨⟨by decide, claim_C3_parallel_lists.1 2 [.pyFloat 3] [.pyStr "time"] [.pyStr "s"]
      [.pyFloat 3, .pyFloat 0] [.pyStr "time", .pyStr "unknown"]
      [.pyStr "s", .pyStr "[]"] (by decide)⟩,
    ⟨by decide, by decide, claim_C3_parallel_lists.2.1
      (Blueprint.mk [[0, 1, 2], [0, 0, 3]] [1, 1] ["time", "tr"] ["s", ""]
        (some 1) none none 0) (.int 0)
      (Blueprint.mk [[0, 1, 2], [0, 0, 3]] [1, 1] ["time", "tr"] ["s", ""]
        (some 1) none none 0)
      (Blueprint.mk [[0], [0]] [1, 1] ["time", "tr"] ["s", ""]
        (some 1) none none 0) (by decide) (by decide)⟩,
    claim_C3_parallel_lists.2.2.1
      (Blueprint.mk [[0, 1, 2], [0, 0, 3]] [1, 1] ["time", "tr"] ["s", ""]
        (some 1) none none 0) [1] (by decide)⟩

/-- C10 counterexample: constructing with a zero-length frequencies list and
two channels raises IndexError (has_size evaluates var[0] on the empty list)
instead of padding with the placeholder token. -/
theorem claim_C10_counterexample :
    init_metadata 2 [] [.pyStr "a", .pyStr "b"] [.pyStr "m", .pyStr "n"] =
      .error .indexError ∧
    PyErr.indexError ≠ PyErr.attributeError := by decide

/-- C10 amended: padding/truncation never raises provided every list that is
shorter than the channel count is non-empty and starts with an element of the
placeholder token's runtime type (and frequencies are numeric); an empty list
with a positive channel count instead raises IndexError at var[0]. -/
theorem claim_C10_padding (n : ℕ) (f c u : List PyVal)
    (hnum : ∀ v ∈ f, v.isNum = true)
    (hf : f.length < n → ∃ v, f.head? = some v ∧ PyVal.sameType (.pyFloat 0) v = true)
    (hc : c.length < n → ∃ v, c.head? = some v ∧ PyVal.sameType (.pyStr "unknown") v = true)
    (hu : u.length < n → ∃ v, u.head? = some v ∧ PyVal.sameType (.pyStr "[]") v = true) :
    init_metadata n f c u =
      .ok (padTrunc f n (.pyFloat 0), padTrunc c n (.pyStr "unknown"),
        padTrunc u n (.pyStr "[]")) := by
  have hval : is_valid_num_list f = .ok f := by
    unfold is_valid_num_list
    rw [if_pos (List.all_eq_true.mpr hnum)]
  simp only [init_metadata, hval, has_size_ok f n _ hf, has_size_ok c n _ hc,
    has_size_ok u n _ hu]

/-- Witness for C10 at concrete inputs: one list padded, one truncated, one
left alone. -/
theorem claim_C10_witness :
    ((∀ v ∈ [PyVal.pyFloat 3], v.isNum = true) ∧
      ([PyVal.pyFloat 3].length < 2 → ∃ v, [PyVal.pyFloat 3].head? = some v ∧
        PyVal.sameType (.pyFloat 0) v = true)) ∧
    init_metadata 2 [.pyFloat 3] [.pyStr "a", .pyStr "b", .pyStr "c"]
        [.pyStr "m", .pyStr "n"] =
      .ok (padTrunc [.pyFloat 3] 2 (.pyFloat 0),
        padTrunc [.pyStr "a", .pyStr "b", .pyStr "c"] 2 (.pyStr "unknown"),
        padTrunc [.pyStr "m", .pyStr "n"] 2 (.pyStr "[]")) :=
  ⟨⟨by decide, by decide⟩,
    claim_C10_padding 2 [.pyFloat 3] [.pyStr "a", .pyStr "b", .pyStr "c"]
      [.pyStr "m", .pyStr "n"] (by decide) (by decide) (by decide) (by decide)⟩

/-- C5 counterexample: for the container with time channel [0, 1, 2] and
trigger channel [0, 0, 3] (first sample above threshold 2.5 at index 2),
check_trigger_amount leaves the time channel's first sample at -2, not 0:
the subtraction zeroes the sample at the first detected pulse, not sample 0. -/
theorem claim_C5_counterexample :
    Except.map (fun b : Blueprint => (b.timeseries.getD 0 []).getD 0 99)
      (check_trigger_amount (Blueprint.mk [[0, 1, 2], [0, 0, 3]] [1, 1]
        ["time", "tr"] ["s", ""] (some 1) none none 0) (5/2) 0 0) = .ok (-2) ∧
    (-2 : ℚ) ≠ 0 := by decide

/-- C5 amended: after check_trigger_amount (when no missing-pulse TR
correction applies), the time channel has had the value at the first sample
exceeding the threshold subtracted from every sample in place, so the entry
at that index — not in general the first entry — equals 0. -/
theorem claim_C5_time_origin
    (b : Blueprint) (thr : ℚ) (nexp : ℕ) (tr : ℚ) (trig : ℤ)
    (trigger time : List ℚ) (b' : Blueprint)
    (htrig : b.trigger_channel = some trig)
    (hget : pyGet b.timeseries trig = .ok trigger)
    (htime : pyGet b.timeseries 0 = .ok time)
    (hnocorr : nexp = 0 ∨ nexp ≤ num_timepoints_of trigger thr ∨ tr = 0)
    (hok : check_trigger_amount b thr nexp tr = .ok b') :
    b'.timeseries.getD 0 [] =
      time.map (fun x => x - time.getD (firstAbove trigger thr) 0) ∧
    (b'.timeseries.getD 0 []).getD (firstAbove trigger thr) 99 = 0 := by
  simp only [check_trigger_amount, htrig, hget, htime] at hok
  cases ht0 : pyGet time (firstAbove trigger thr : ℤ) with
  | error e => simp only [ht0] at hok; cases hok
  | ok t0 =>
    simp only [ht0] at hok
    obtain ⟨hidx, ht0v⟩ := pyGet_nat_ok ht0 0
    have hcond : ¬(nexp ≠ 0 ∧ num_timepoints_of trigger thr < nexp ∧ tr ≠ 0) := by
      rintro ⟨h1, h2, h3⟩
      rcases hnocorr with h | h | h
      · exact h1 h
      · omega
      · exact h3 h
    rw [if_neg hcond] at hok
    simp only [Except.ok.injEq] at hok
    rw [← hok]
    have hlen0 : 0 < b.timeseries.length := (pyGet_nat_ok htime []).1
    have hset : ((b.timeseries.set 0 (time.map fun x => x - t0)).getD 0 []) =
        time.map fun x => x - t0 := getD_set_zero _ _ _ hlen0
    constructor
    · simp only [hset, ht0v]
    · simp only [hset]
      rw [getD_map_sub time t0 _ hidx, ht0v, sub_self]

/-- Witness for C5 at a concrete container. -/
theorem claim_C5_witness :
    ((Blueprint.mk [[0, 1, 2], [0, 0, 3]] [1, 1] ["time", "tr"] ["s", ""]
        (some 1) none none 0).trigger_channel = some 1 ∧
      pyGet (Blueprint.mk [[0, 1, 2], [0, 0, 3]] [1, 1] ["time", "tr"] ["s", ""]
        (some 1) none none 0).timeseries 1 = .ok [0, 0, 3] ∧
      pyGet (Blueprint.mk [[0, 1, 2], [0, 0, 3]] [1, 1] ["time", "tr"] ["s", ""]
        (some 1) none none 0).timeseries 0 = .ok [0, 1, 2] ∧
      check_trigger_amount (Blueprint.mk [[0, 1, 2], [0, 0, 3]] [1, 1]
        ["time", "tr"] ["s", ""] (some 1) none none 0) (5/2) 0 0 =
        .ok (Blueprint.mk [[-2, -1, 0], [0, 0, 3]] [1, 1] ["time", "tr"] ["s", ""]
          (some 1) (some 1) (some (5/2)) 2)) ∧
    ((Blueprint.mk [[-2, -1, 0], [0, 0, 3]] [1, 1] ["time", "tr"] ["s", ""]
        (some 1) (some 1) (some (5/2)) 2).timeseries.getD 0 [] =
      [0, 1, 2].map (fun x => x - [0, 1, 2].getD (firstAbove [0, 0, 3] (5/2)) 0) ∧
      ((Blueprint.mk [[-2, -1, 0], [0, 0, 3]] [1, 1] ["time", "tr"] ["s", ""]
        (some 1) (some 1) (some (5/2)) 2).timeseries.getD 0 []).getD
          (firstAbove [0, 0, 3] (5/2)) 99 = 0) :=
  ⟨⟨rfl, by decide, by decide, by decide⟩,
    claim_C5_time_origin
      (Blueprint.mk [[0, 1, 2], [0, 0, 3]] [1, 1] ["time", "tr"] ["s", ""]
        (some 1) none none 0) (5/2) 0 0 1 [0, 0, 3] [0, 1, 2]
      (Blueprint.mk [[-2, -1, 0], [0, 0, 3]] [1, 1] ["time", "tr"] ["s", ""]
        (some 1) (some 1) (some (5/2)) 2)
      rfl (by decide) (by decide) (Or.inl rfl) (by decide)⟩

/-- C6: remove_channels never deletes anything — its first statement calls
np.as_array, which does not exist in numpy, so every call raises
AttributeError (evaluated here at a concrete container and index list), and
no call ever returns a container. -/
theorem claim_C6_remove_channels_crashes :
    remove_channels (Blueprint.mk [[0, 1], [0, 3], [5, 6]] [1, 1, 1]
      ["time", "tr", "x"] ["s", "", ""] (some 1) none none 0) [1] =
      .error .attributeError ∧
    (∀ (b : Blueprint) (idxs : List ℕ) (r : Blueprint),
      remove_channels b idxs ≠ .ok r) := by
  constructor
  · decide
  · intro b idxs r h
    simp [remove_channels, np_as_array] at h

/-- Witness for C6's universally quantified part at a concrete input. -/
theorem claim_C6_witness :
    remove_channels (Blueprint.mk [[0, 1], [0, 3]] [1, 1] ["time", "tr"]
      ["s", ""] (some 1) none none 0) [0] ≠
      .ok (Blueprint.mk [[0, 1], [0, 3]] [1, 1] ["time", "tr"]
        ["s", ""] (some 1) none none 0) :=
  claim_C6_remove_channels_crashes.2
    (Blueprint.mk [[0, 1], [0, 3]] [1, 1] ["time", "tr"] ["s", ""]
      (some 1) none none 0) [0]
    (Blueprint.mk [[0, 1], [0, 3]] [1, 1] ["time", "tr"] ["s", ""]
      (some 1) none none 0)

/-- C7: to_frequency never returns a view — requesting a frequency that is
present evaluates the undefined name `frequencies` (NameError), and
requesting an absent one crashes formatting the error message (TypeError:
join on floats) instead of raising the intended ValueError; evaluated on a
container with frequencies [1, 1, 2] at requests 1 and 5. -/
theorem claim_C7_to_frequency_crashes :
    to_frequency (Blueprint.mk [[0, 1], [2, 3], [4, 5]] [1, 1, 2]
      ["time", "a", "b"] ["s", "", ""] (some 0) none none 0) 1 =
      .error .nameError ∧
    to_frequency (Blueprint.mk [[0, 1], [2, 3], [4, 5]] [1, 1, 2]
      ["time", "a", "b"] ["s", "", ""] (some 0) none none 0) 5 =
      .error .typeError ∧
    PyErr.typeError ≠ PyErr.valueError ∧
    (∀ (b : Blueprint) (fq : ℚ) (u : Unit), to_frequency b fq ≠ .ok u) := by
  refine ⟨by decide, by decide, by decide, ?_⟩
  intro b fq u h
  unfold to_frequency at h
  split at h
  · split at h <;> cases h
  · cases h

/-- Witness for C7's universally quantified part at a concrete input. -/
theorem claim_C7_witness :
    to_frequency (Blueprint.mk [[0, 1], [2, 3], [4, 5]] [1, 1, 2]
      ["time", "a", "b"] ["s", "", ""] (some 0) none none 0) 1 ≠ .ok () :=
  claim_C7_to_frequency_crashes.2.2.2
    (Blueprint.mk [[0, 1], [2, 3], [4, 5]] [1, 1, 2]
      ["time", "a", "b"] ["s", "", ""] (some 0) none none 0) 1 ()

/-- C8: the equality test is not element-wise — two containers whose only
timeseries arrays are [1, 2] and [3, 4] (element-wise different, but both
all-non-zero) compare as equal, because the ValueError fallback compares
arr.all() reductions instead of the arrays. -/
theorem claim_C8_equality_not_elementwise :
    are_equal
      (Blueprint.mk [[1, 2]] [1] ["time"] ["s"] (some 0) none none 0)
      (Blueprint.mk [[3, 4]] [1] ["time"] ["s"] (some 0) none none 0) = true ∧
    (Blueprint.mk [[1, 2]] [1] ["time"] ["s"] (some 0) none none 0).timeseries ≠
      (Blueprint.mk [[3, 4]] [1] ["time"] ["s"] (some 0) none none 0).timeseries := by
  decide

/-- C9 counterexample: slicing a container whose trigger channel is unset
(None) mutates the source — after container[0:1] the source's
trigger_channel is 0, no longer None. -/
theorem claim_C9_counterexample :
    (Blueprint.mk [[0, 1], [0, 3]] [1, 1] ["time", "tr"] ["s", ""]
      none none none 0).trigger_channel = none ∧
    Except.map (fun p : Blueprint × Blueprint => p.1.trigger_channel)
      (getitem (Blueprint.mk [[0, 1], [0, 3]] [1, 1] ["time", "tr"] ["s", ""]
        none none none 0) (.slice (some 0) (some 1) none)) = .ok (some 0) ∧
    (some (0 : ℤ) ≠ (none : Option ℤ)) := by decide

/-- C9 amended: when the trigger channel is set, a successful slice leaves
every field of the source container unchanged and returns a new container
that differs from the source only in its (sliced) timeseries; when the
trigger is unset, line 288 sets the source's trigger_channel to 0. (Array
aliasing — numpy views versus deep copies — is outside this value-level
embedding.) -/
theorem claim_C9_frame (b : Blueprint) (idx : PyIdx) (t : ℤ) (b₁ b₂ : Blueprint)
    (htrig : b.trigger_channel = some t)
    (hok : getitem b idx = .ok (b₁, b₂)) :
    b₁ = b ∧ b₂.frequencies = b.frequencies ∧ b₂.channel_names = b.channel_names ∧
    b₂.units = b.units ∧ b₂.trigger_channel = b.trigger_channel ∧
    b₂.num_timepoints_found = b.num_timepoints_found ∧ b₂.thr = b.thr ∧
    b₂.time_offset = b.time_offset := by
  unfold getitem at hok
  rw [getitem_self b htrig] at hok
  simp only at hok
  split at hok
  · cases hok
  · split at hok
    · cases hok
    · split at hok
      · cases hok
      · split at hok
        · cases hok
        · split at hok
          · cases hok
          · simp only [Except.ok.injEq, Prod.mk.injEq] at hok
            obtain ⟨h1, h2⟩ := hok
            rw [← h1, ← h2]
            exact ⟨rfl, rfl, rfl, rfl, rfl, rfl, rfl, rfl⟩

/-- Witness for C9 at a concrete container and index. -/
theorem claim_C9_witness :
    ((Blueprint.mk [[0, 1, 2], [0, 0, 3]] [1, 1] ["time", "tr"] ["s", ""]
        (some 1) none none 0).trigger_channel = some 1 ∧
      getitem (Blueprint.mk [[0, 1, 2], [0, 0, 3]] [1, 1] ["time", "tr"] ["s", ""]
          (some 1) none none 0) (.int 0) =
        .ok (Blueprint.mk [[0, 1, 2], [0, 0, 3]] [1, 1] ["time", "tr"] ["s", ""]
            (some 1) none none 0,
          Blueprint.mk [[0], [0]] [1, 1] ["time", "tr"] ["s", ""]
            (some 1) none none 0)) ∧
    (Blueprint.mk [[0, 1, 2], [0, 0, 3]] [1, 1] ["time", "tr"] ["s", ""]
        (some 1) none none 0 =
      Blueprint.mk [[0, 1, 2], [0, 0, 3]] [1, 1] ["time", "tr"] ["s", ""]
        (some 1) none none 0 ∧
      (Blueprint.mk [[0], [0]] [1, 1] ["time", "tr"] ["s", ""]
        (some 1) none none 0).frequencies = [1, 1] ∧
      (Blueprint.mk [[0], [0]] [1, 1] ["time", "tr"] ["s", ""]
        (some 1) none none 0).channel_names = ["time", "tr"] ∧
      (Blueprint.mk [[0], [0]] [1, 1] ["time", "tr"] ["s", ""]
        (some 1) none none 0).units = ["s", ""] ∧
      (Blueprint.mk [[0], [0]] [1, 1] ["time", "tr"] ["s", ""]
        (some 1) none none 0).trigger_channel = some 1 ∧
      (Blueprint.mk [[0], [0]] [1, 1] ["time", "tr"] ["s", ""]
        (some 1) none none 0).num_timepoints_found = none ∧
      (Blueprint.mk [[0], [0]] [1, 1] ["time", "tr"] ["s", ""]
        (some 1) none none 0).thr = none ∧
      (Blueprint.mk [[0], [0]] [1, 1] ["time", "tr"] ["s", ""]
        (some 1) none none 0).time_offset = 0) :=
  ⟨⟨rfl, by decide⟩,
    claim_C9_frame
      (Blueprint.mk [[0, 1, 2], [0, 0, 3]] [1, 1] ["time", "tr"] ["s", ""]
        (some 1) none none 0) (.int 0) 1
      (Blueprint.mk [[0, 1, 2], [0, 0, 3]] [1, 1] ["time", "tr"] ["s", ""]
        (some 1) none none 0)
      (Blueprint.mk [[0], [0]] [1, 1] ["time", "tr"] ["s", ""]
        (some 1) none none 0) rfl (by decide)⟩

/-- C2: over a container whose channel lengths are exactly proportional to
their frequencies (the documented data model) and whose frequencies are
positive, slicing by an in-bounds range [a, b) gives each channel of
frequency ratio k the index range [floor(k*a), floor(k*b)) — hence
floor(k*b) - floor(k*a) samples, widened to one sample when that range is
empty — and slicing by a single integer (negative integers resolving against
the trigger channel's length) gives exactly one sample per channel. -/
theorem claim_C2_proportional_slicing
    (b : Blueprint) (t L : ℕ)
    (htrig : b.trigger_channel = some (t : ℤ))
    (ht : t < b.timeseries.length)
    (hlen : b.frequencies.length = b.timeseries.length)
    (hL : (b.timeseries.getD t []).length = L)
    (hfpos : ∀ n, n < b.timeseries.length → 0 < b.frequencies.getD n 0)
    (hexact : ∀ n, n < b.timeseries.length →
        ((b.timeseries.getD n []).length : ℚ) =
          b.frequencies.getD n 0 / b.frequencies.getD t 0 * L) :
    (∀ a bnd : ℕ, a < bnd → bnd ≤ L →
      ∃ b₂ : Blueprint,
        getitem b (.slice (some (a : ℤ)) (some (bnd : ℤ)) none) = .ok (b, b₂) ∧
        ∀ n, n < b.timeseries.length →
          b₂.timeseries.getD n [] =
            ((b.timeseries.getD n []).drop
              (⌊b.frequencies.getD n 0 / b.frequencies.getD t 0 * (a : ℚ)⌋).toNat).take
              (max (⌊b.frequencies.getD n 0 / b.frequencies.getD t 0 * (bnd : ℚ)⌋ -
                ⌊b.frequencies.getD n 0 / b.frequencies.getD t 0 * (a : ℚ)⌋).toNat 1) ∧
          (b₂.timeseries.getD n []).length =
            max (⌊b.frequencies.getD n 0 / b.frequencies.getD t 0 * (bnd : ℚ)⌋ -
              ⌊b.frequencies.getD n 0 / b.frequencies.getD t 0 * (a : ℚ)⌋).toNat 1)
    ∧ (∀ i : ℤ, -(L : ℤ) ≤ i → i < (L : ℤ) →
      ∃ b₂ : Blueprint,
        getitem b (.int i) = .ok (b, b₂) ∧
        ∀ n, n < b.timeseries.length → (b₂.timeseries.getD n []).length = 1) := by
  constructor
  · intro a bnd hab hbL
    have key := getitem_slice_ok b t L (a : ℤ) (bnd : ℤ) htrig ht hlen hL hfpos hexact
      (by omega) (by omega) (by omega) (by omega)
    refine ⟨_, key, ?_⟩
    intro n hn
    have hk : 0 < b.frequencies.getD n 0 / b.frequencies.getD t 0 :=
      div_pos (hfpos n hn) (hfpos t ht)
    have h2 := floor_mul_lt hk (hexact n hn) (by omega : (a : ℤ) < (L : ℤ))
    have h3 := floor_mul_le hk (hexact n hn) (by omega : (bnd : ℤ) ≤ (L : ℤ))
    have h1 := floor_mul_nonneg hk (by omega : (0 : ℤ) ≤ (a : ℤ))
    have h4 := floor_mul_mono hk (by omega : (a : ℤ) ≤ (bnd : ℤ))
    have hgd : ((List.range b.timeseries.length).map (fun n =>
        ((b.timeseries.getD n []).drop
            (⌊b.frequencies.getD n 0 / b.frequencies.getD t 0 * ((a : ℤ) : ℚ)⌋).toNat).take
          ((max ⌊b.frequencies.getD n 0 / b.frequencies.getD t 0 * ((bnd : ℤ) : ℚ)⌋
              (⌊b.frequencies.getD n 0 / b.frequencies.getD t 0 * ((a : ℤ) : ℚ)⌋ + 1)
            - ⌊b.frequencies.getD n 0 / b.frequencies.getD t 0 * ((a : ℤ) : ℚ)⌋).toNat))).getD n [] =
        ((b.timeseries.getD n []).drop
            (⌊b.frequencies.getD n 0 / b.frequencies.getD t 0 * ((a : ℤ) : ℚ)⌋).toNat).take
          ((max ⌊b.frequencies.getD n 0 / b.frequencies.getD t 0 * ((bnd : ℤ) : ℚ)⌋
              (⌊b.frequencies.getD n 0 / b.frequencies.getD t 0 * ((a : ℤ) : ℚ)⌋ + 1)
            - ⌊b.frequencies.getD n 0 / b.frequencies.getD t 0 * ((a : ℤ) : ℚ)⌋).toNat) := by
      rw [List.getD_eq_getElem?_getD, List.getElem?_map, List.getElem?_range hn]
      rfl
    simp only [hgd]
    push_cast at h1 h2 h3 h4 ⊢
    have hcnt : ((max ⌊b.frequencies.getD n 0 / b.frequencies.getD t 0 * (bnd : ℚ)⌋
          (⌊b.frequencies.getD n 0 / b.frequencies.getD t 0 * (a : ℚ)⌋ + 1)
        - ⌊b.frequencies.getD n 0 / b.frequencies.getD t 0 * (a : ℚ)⌋).toNat) =
        max (⌊b.frequencies.getD n 0 / b.frequencies.getD t 0 * (bnd : ℚ)⌋ -
          ⌊b.frequencies.getD n 0 / b.frequencies.getD t 0 * (a : ℚ)⌋).toNat 1 := by
      omega
    rw [hcnt]
    refine ⟨rfl, ?_⟩
    rw [List.length_take, List.length_drop]
    omega
  · intro i hi1 hi2
    have hres : 0 ≤ (if i < 0 then (L : ℤ) + i else i) := by split <;> omega
    have hresL : (if i < 0 then (L : ℤ) + i else i) < (L : ℤ) := by split <;> omega
    have key := getitem_int_ok b t L i htrig ht hlen hL hfpos hexact hres hresL
    refine ⟨_, key, ?_⟩
    intro n hn
    have hk : 0 < b.frequencies.getD n 0 / b.frequencies.getD t 0 :=
      div_pos (hfpos n hn) (hfpos t ht)
    have h2 := floor_mul_lt hk (hexact n hn) hresL
    have h1 := floor_mul_nonneg hk hres
    have hgd : ((List.range b.timeseries.length).map (fun n =>
        ((b.timeseries.getD n []).drop
            (⌊b.frequencies.getD n 0 / b.frequencies.getD t 0 *
              (((if i < 0 then (L : ℤ) + i else i) : ℤ) : ℚ)⌋).toNat).take 1)).getD n [] =
        ((b.timeseries.getD n []).drop
            (⌊b.frequencies.getD n 0 / b.frequencies.getD t 0 *
              (((if i < 0 then (L : ℤ) + i else i) : ℤ) : ℚ)⌋).toNat).take 1 := by
      rw [List.getD_eq_getElem?_getD, List.getElem?_map, List.getElem?_range hn]
      rfl
    simp only [hgd]
    rw [List.length_take, List.length_drop]
    omega

/-- Witness for C2 at a concrete three-channel container (frequencies 1, 1
and 2; trigger channel 1 of length 5). -/
theorem claim_C2_witness :
    ((Blueprint.mk [[0, 1, 2, 3, 4], [0, 0, 3, 3, 0],
        [10, 20, 30, 40, 50, 60, 70, 80, 90, 100]] [1, 1, 2]
        ["time", "tr", "fast"] ["s", "", ""] (some 1) none none 0).trigger_channel =
      some 1 ∧ (1 : ℕ) < 3 ∧ (1 : ℕ) < 3 ∧ (3 : ℕ) ≤ 5 ∧
      -(5 : ℤ) ≤ -2 ∧ (-2 : ℤ) < 5) ∧
    (∃ b₂ : Blueprint,
      getitem (Blueprint.mk [[0, 1, 2, 3, 4], [0, 0, 3, 3, 0],
          [10, 20, 30, 40, 50, 60, 70, 80, 90, 100]] [1, 1, 2]
          ["time", "tr", "fast"] ["s", "", ""] (some 1) none none 0)
        (.slice (some ((1 : ℕ) : ℤ)) (some ((3 : ℕ) : ℤ)) none) =
        .ok (Blueprint.mk [[0, 1, 2, 3, 4], [0, 0, 3, 3, 0],
          [10, 20, 30, 40, 50, 60, 70, 80, 90, 100]] [1, 1, 2]
          ["time", "tr", "fast"] ["s", "", ""] (some 1) none none 0, b₂) ∧
      ∀ n, n < (Blueprint.mk [[0, 1, 2, 3, 4], [0, 0, 3, 3, 0],
          [10, 20, 30, 40, 50, 60, 70, 80, 90, 100]] [1, 1, 2]
          ["time", "tr", "fast"] ["s", "", ""] (some 1) none none 0).timeseries.length →
        b₂.timeseries.getD n [] =
          (((Blueprint.mk [[0, 1, 2, 3, 4], [0, 0, 3, 3, 0],
              [10, 20, 30, 40, 50, 60, 70, 80, 90, 100]] [1, 1, 2]
              ["time", "tr", "fast"] ["s", "", ""] (some 1) none none 0).timeseries.getD n []).drop
            (⌊(Blueprint.mk [[0, 1, 2, 3, 4], [0, 0, 3, 3, 0],
              [10, 20, 30, 40, 50, 60, 70, 80, 90, 100]] [1, 1, 2]
              ["time", "tr", "fast"] ["s", "", ""] (some 1) none none 0).frequencies.getD n 0 /
              (Blueprint.mk [[0, 1, 2, 3, 4], [0, 0, 3, 3, 0],
              [10, 20, 30, 40, 50, 60, 70, 80, 90, 100]] [1, 1, 2]
              ["time", "tr", "fast"] ["s", "", ""] (some 1) none none 0).frequencies.getD 1 0 *
              ((1 : ℕ) : ℚ)⌋).toNat).take
            (max (⌊(Blueprint.mk [[0, 1, 2, 3, 4], [0, 0, 3, 3, 0],
              [10, 20, 30, 40, 50, 60, 70, 80, 90, 100]] [1, 1, 2]
              ["time", "tr", "fast"] ["s", "", ""] (some 1) none none 0).frequencies.getD n 0 /
              (Blueprint.mk [[0, 1, 2, 3, 4], [0, 0, 3, 3, 0],
              [10, 20, 30, 40, 50, 60, 70, 80, 90, 100]] [1, 1, 2]
              ["time", "tr", "fast"] ["s", "", ""] (some 1) none none 0).frequencies.getD 1 0 *
              ((3 : ℕ) : ℚ)⌋ -
              ⌊(Blueprint.mk [[0, 1, 2, 3, 4], [0, 0, 3, 3, 0],
              [10, 20, 30, 40, 50, 60, 70, 80, 90, 100]] [1, 1, 2]
              ["time", "tr", "fast"] ["s", "", ""] (some 1) none none 0).frequencies.getD n 0 /
              (Blueprint.mk [[0, 1, 2, 3, 4], [0, 0, 3, 3, 0],
              [10, 20, 30, 40, 50, 60, 70, 80, 90, 100]] [1, 1, 2]
              ["time", "tr", "fast"] ["s", "", ""] (some 1) none none 0).frequencies.getD 1 0 *
              ((1 : ℕ) : ℚ)⌋).toNat 1) ∧
        (b₂.timeseries.getD n []).length =
          max (⌊(Blueprint.mk [[0, 1, 2, 3, 4], [0, 0, 3, 3, 0],
            [10, 20, 30, 40, 50, 60, 70, 80, 90, 100]] [1, 1, 2]
            ["time", "tr", "fast"] ["s", "", ""] (some 1) none none 0).frequencies.getD n 0 /
            (Blueprint.mk [[0, 1, 2, 3, 4], [0, 0, 3, 3, 0],
            [10, 20, 30, 40, 50, 60, 70, 80, 90, 100]] [1, 1, 2]
            ["time", "tr", "fast"] ["s", "", ""] (some 1) none none 0).frequencies.getD 1 0 *
            ((3 : ℕ) : ℚ)⌋ -
            ⌊(Blueprint.mk [[0, 1, 2, 3, 4], [0, 0, 3, 3, 0],
            [10, 20, 30, 40, 50, 60, 70, 80, 90, 100]] [1, 1, 2]
            ["time", "tr", "fast"] ["s", "", ""] (some 1) none none 0).frequencies.getD n 0 /
            (Blueprint.mk [[0, 1, 2, 3, 4], [0, 0, 3, 3, 0],
            [10, 20, 30, 40, 50, 60, 70, 80, 90, 100]] [1, 1, 2]
            ["time", "tr", "fast"] ["s", "", ""] (some 1) none none 0).frequencies.getD 1 0 *
            ((1 : ℕ) : ℚ)⌋).toNat 1) ∧
    (∃ b₂ : Blueprint,
      getitem (Blueprint.mk [[0, 1, 2, 3, 4], [0, 0, 3, 3, 0],
          [10, 20, 30, 40, 50, 60, 70, 80, 90, 100]] [1, 1, 2]
          ["time", "tr", "fast"] ["s", "", ""] (some 1) none none 0) (.int (-2)) =
        .ok (Blueprint.mk [[0, 1, 2, 3, 4], [0, 0, 3, 3, 0],
          [10, 20, 30, 40, 50, 60, 70, 80, 90, 100]] [1, 1, 2]
          ["time", "tr", "fast"] ["s", "", ""] (some 1) none none 0, b₂) ∧
      ∀ n, n < (Blueprint.mk [[0, 1, 2, 3, 4], [0, 0, 3, 3, 0],
          [10, 20, 30, 40, 50, 60, 70, 80, 90, 100]] [1, 1, 2]
          ["time", "tr", "fast"] ["s", "", ""] (some 1) none none 0).timeseries.length →
        (b₂.timeseries.getD n []).length = 1) :=
  ⟨⟨rfl, by decide, by decide, by decide, by decide, by decide⟩,
    (claim_C2_proportional_slicing
      (Blueprint.mk [[0, 1, 2, 3, 4], [0, 0, 3, 3, 0],
        [10, 20, 30, 40, 50, 60, 70, 80, 90, 100]] [1, 1, 2]
        ["time", "tr", "fast"] ["s", "", ""] (some 1) none none 0) 1 5
      rfl (by decide) (by decide) (by decide) (by decide) (by decide)).1
      1 3 (by decide) (by decide),
    (claim_C2_proportional_slicing
      (Blueprint.mk [[0, 1, 2, 3, 4], [0, 0, 3, 3, 0],
        [10, 20, 30, 40, 50, 60, 70, 80, 90, 100]] [1, 1, 2]
        ["time", "tr", "fast"] ["s", "", ""] (some 1) none none 0) 1 5
      rfl (by decide) (by decide) (by decide) (by decide) (by decide)).2
      (-2) (by decide) (by decide)⟩

/-- C4: slicing with a start at or past the trigger channel's length, or a
stop past it, raises IndexError; slicing with stop exactly the trigger
channel's full length succeeds, and each channel keeps its full remaining
length from floor(k*start) to its own end (the per-channel stop is clamped
to that channel's own length). -/
theorem claim_C4_bounds
    (b : Blueprint) (t L : ℕ)
    (htrig : b.trigger_channel = some (t : ℤ))
    (ht : t < b.timeseries.length)
    (hlen : b.frequencies.length = b.timeseries.length)
    (hL : (b.timeseries.getD t []).length = L)
    (hfpos : ∀ n, n < b.timeseries.length → 0 < b.frequencies.getD n 0)
    (hexact : ∀ n, n < b.timeseries.length →
        ((b.timeseries.getD n []).length : ℚ) =
          b.frequencies.getD n 0 / b.frequencies.getD t 0 * L) :
    (∀ s e : ℤ, ((L : ℤ) ≤ s ∨ (L : ℤ) < e) →
      getitem b (.slice (some s) (some e) none) = .error .indexError)
    ∧ (∀ a : ℕ, a < L →
      ∃ b₂ : Blueprint,
        getitem b (.slice (some (a : ℤ)) (some (L : ℤ)) none) = .ok (b, b₂) ∧
        ∀ n, n < b.timeseries.length →
          (b₂.timeseries.getD n []).length =
            (b.timeseries.getD n []).length -
              (⌊b.frequencies.getD n 0 / b.frequencies.getD t 0 * (a : ℚ)⌋).toNat) := by
  constructor
  · intro s e hoob
    exact getitem_slice_oob b t L s e htrig ht hL (by omega)
  · intro a haL
    have key := getitem_slice_ok b t L (a : ℤ) (L : ℤ) htrig ht hlen hL hfpos hexact
      (by omega) (by omega) (by omega) (by omega)
    refine ⟨_, key, ?_⟩
    intro n hn
    have hk : 0 < b.frequencies.getD n 0 / b.frequencies.getD t 0 :=
      div_pos (hfpos n hn) (hfpos t ht)
    have h2 := floor_mul_lt hk (hexact n hn) (by omega : (a : ℤ) < (L : ℤ))
    have h1 := floor_mul_nonneg hk (by omega : (0 : ℤ) ≤ (a : ℤ))
    have hfull : ⌊b.frequencies.getD n 0 / b.frequencies.getD t 0 * ((L : ℤ) : ℚ)⌋ =
        ((b.timeseries.getD n []).length : ℤ) := by
      push_cast
      rw [← hexact n hn, Int.floor_natCast]
    have hgd : ((List.range b.timeseries.length).map (fun n =>
        ((b.timeseries.getD n []).drop
            (⌊b.frequencies.getD n 0 / b.frequencies.getD t 0 * ((a : ℤ) : ℚ)⌋).toNat).take
          ((max ⌊b.frequencies.getD n 0 / b.frequencies.getD t 0 * ((L : ℤ) : ℚ)⌋
              (⌊b.frequencies.getD n 0 / b.frequencies.getD t 0 * ((a : ℤ) : ℚ)⌋ + 1)
            - ⌊b.frequencies.getD n 0 / b.frequencies.getD t 0 * ((a : ℤ) : ℚ)⌋).toNat))).getD n [] =
        ((b.timeseries.getD n []).drop
            (⌊b.frequencies.getD n 0 / b.frequencies.getD t 0 * ((a : ℤ) : ℚ)⌋).toNat).take
          ((max ⌊b.frequencies.getD n 0 / b.frequencies.getD t 0 * ((L : ℤ) : ℚ)⌋
              (⌊b.frequencies.getD n 0 / b.frequencies.getD t 0 * ((a : ℤ) : ℚ)⌋ + 1)
            - ⌊b.frequencies.getD n 0 / b.frequencies.getD t 0 * ((a : ℤ) : ℚ)⌋).toNat) := by
      rw [List.getD_eq_getElem?_getD, List.getElem?_map, List.getElem?_range hn]
      rfl
    simp only [hgd, hfull]
    push_cast at h1 h2 ⊢
    rw [List.length_take, List.length_drop]
    omega

/-- Witness for C4 at the same concrete container as C2's witness. -/
theorem claim_C4_witness :
    ((5 : ℤ) ≤ 7 ∧ (2 : ℕ) < 5) ∧
    getitem (Blueprint.mk [[0, 1, 2, 3, 4], [0, 0, 3, 3, 0],
        [10, 20, 30, 40, 50, 60, 70, 80, 90, 100]] [1, 1, 2]
        ["time", "tr", "fast"] ["s", "", ""] (some 1) none none 0)
      (.slice (some 7) (some 2) none) = .error .indexError ∧
    (∃ b₂ : Blueprint,
      getitem (Blueprint.mk [[0, 1, 2, 3, 4], [0, 0, 3, 3, 0],
          [10, 20, 30, 40, 50, 60, 70, 80, 90, 100]] [1, 1, 2]
          ["time", "tr", "fast"] ["s", "", ""] (some 1) none none 0)
        (.slice (some ((2 : ℕ) : ℤ)) (some ((5 : ℕ) : ℤ)) none) =
        .ok (Blueprint.mk [[0, 1, 2, 3, 4], [0, 0, 3, 3, 0],
          [10, 20, 30, 40, 50, 60, 70, 80, 90, 100]] [1, 1, 2]
          ["time", "tr", "fast"] ["s", "", ""] (some 1) none none 0, b₂) ∧
      ∀ n, n < (Blueprint.mk [[0, 1, 2, 3, 4], [0, 0, 3, 3, 0],
          [10, 20, 30, 40, 50, 60, 70, 80, 90, 100]] [1, 1, 2]
          ["time", "tr", "fast"] ["s", "", ""] (some 1) none none 0).timeseries.length →
        (b₂.timeseries.getD n []).length =
          ((Blueprint.mk [[0, 1, 2, 3, 4], [0, 0, 3, 3, 0],
            [10, 20, 30, 40, 50, 60, 70, 80, 90, 100]] [1, 1, 2]
            ["time", "tr", "fast"] ["s", "", ""] (some 1) none none 0).timeseries.getD n []).length -
            (⌊(Blueprint.mk [[0, 1, 2, 3, 4], [0, 0, 3, 3, 0],
              [10, 20, 30, 40, 50, 60, 70, 80, 90, 100]] [1, 1, 2]
              ["time", "tr", "fast"] ["s", "", ""] (some 1) none none 0).frequencies.getD n 0 /
              (Blueprint.mk [[0, 1, 2, 3, 4], [0, 0, 3, 3, 0],
              [10, 20, 30, 40, 50, 60, 70, 80, 90, 100]] [1, 1, 2]
              ["time", "tr", "fast"] ["s", "", ""] (some 1) none none 0).frequencies.getD 1 0 *
              ((2 : ℕ) : ℚ)⌋).toNat) :=
  ⟨⟨by decide, by decide⟩,
    (claim_C4_bounds
      (Blueprint.mk [[0, 1, 2, 3, 4], [0, 0, 3, 3, 0],
        [10, 20, 30, 40, 50, 60, 70, 80, 90, 100]] [1, 1, 2]
        ["time", "tr", "fast"] ["s", "", ""] (some 1) none none 0) 1 5
      rfl (by decide) (by decide) (by decide) (by decide) (by decide)).1
      7 2 (Or.inl (by decide)),
    (claim_C4_bounds
      (Blueprint.mk [[0, 1, 2, 3, 4], [0, 0, 3, 3, 0],
        [10, 20, 30, 40, 50, 60, 70, 80, 90, 100]] [1, 1, 2]
        ["time", "tr", "fast"] ["s", "", ""] (some 1) none none 0) 1 5
      rfl (by decide) (by decide) (by decide) (by decide) (by decide)).2
      2 (by decide)⟩

end Phys2Bids
